import Mathlib

/-
Verification of the pdf-stamp signing core: a shallow embedding of the
placeholder objects, the two-phase write-signature protocol, and the
incremental-writer bookkeeping from
src/pyhanko/sign/signers.py and src/pyhanko/pdf_utils/incremental_writer.py,
together with theorems settling the specification claims.
-/

/- Byte streams.  A seekable in-memory buffer of bytes, mirroring io.BytesIO
   as the signing and writing code uses it: write overwrites in place at the
   current position (zero-filling any gap, as BytesIO does), seek moves the
   position, tell reads it.  Bytes are modelled as Nat values. -/

structure MStream where
  data : List Nat
  pos : Nat
  deriving DecidableEq, Repr

def MStream.write (s : MStream) (bs : List Nat) : MStream :=
  let d := if s.pos ≤ s.data.length then s.data
           else s.data ++ List.replicate (s.pos - s.data.length) 0
  { data := d.take s.pos ++ bs ++ d.drop (s.pos + bs.length),
    pos := s.pos + bs.length }

def MStream.seek (s : MStream) (p : Nat) : MStream := { s with pos := p }

def MStream.tell (s : MStream) : Nat := s.pos

/- Error kinds raised by the signing code.  The Python source raises
   ValueError / SigningError / AssertionError with messages; each constructor
   below corresponds to one raise site, named with the surface name used by
   the specification. -/

inductive SignErr where
  /- ValueError: Offsets already filled (signers.py line 53) -/
  | alreadyFilled
  /- ValueError: Could not determine where to write /ByteRange value
     (signers.py line 55) -/
  | noRecordedOffset
  /- ValueError: No offsets available (signers.py line 91) -/
  | noOffsets
  /- AssertionError carrying (length, bytes_reserved) (signers.py line 173) -/
  | tooLarge (length : Nat) (reserved : Int)
  /- SigningError: Not specifying field_name requires existing_fields_only
     (signers.py line 549) -/
  | fieldNameRequired (attr : String)
  /- SigningError: There are no empty signature fields (signers.py line 565) -/
  | noEmptyFields
  /- SigningError: There are several empty signature fields
     (signers.py line 571) -/
  | ambiguousField (first : Option String) (others : List String)
  /- SigningError: Document already contains a certification signature
     (signers.py line 822) -/
  | alreadyCertified
  /- SigningError: Author signature forbids all changes (signers.py 826) -/
  | authorSigForbidsChanges
  deriving DecidableEq, Repr

def isOkE {α : Type} : Except SignErr α → Bool
  | .ok _ => true
  | .error _ => false

instance {ε α : Type} [DecidableEq ε] [DecidableEq α] :
    DecidableEq (Except ε α) := fun x y =>
  match x, y with
  | .ok a, .ok b =>
    match decEq a b with
    | isTrue h => isTrue (h ▸ rfl)
    | isFalse h => isFalse (fun c => h (Except.ok.inj c))
  | .ok _, .error _ => isFalse (fun c => Except.noConfusion c)
  | .error _, .ok _ => isFalse (fun c => Except.noConfusion c)
  | .error a, .error b =>
    match decEq a b with
    | isTrue h => isTrue (h ▸ rfl)
    | isFalse h => isFalse (fun c => h (Except.error.inj c))

/- SigByteRangeObject (signers.py lines 42-78).  Python ints are modelled
   as Int.  The serialised form is the fixed-width 34-byte ASCII string
   produced by the format [ %08d %08d %08d %08d ]. -/

structure SigByteRangeObject where
  _filled : Bool
  _range_object_offset : Option Nat
  first_region_len : Int
  second_region_offset : Int
  second_region_len : Int
  deriving DecidableEq, Repr

def SigByteRangeObject.init : SigByteRangeObject :=
  { _filled := false, _range_object_offset := none,
    first_region_len := 0, second_region_offset := 0, second_region_len := 0 }

/- Rendering of the %08d conversion: zero-pad the decimal form to width 8;
   for a negative number the minus sign counts toward the width, as in
   Python. -/

def zeroPadDigits (w : Nat) (cs : List Char) : List Char :=
  List.replicate (w - cs.length) '0' ++ cs

def pct08d (i : Int) : List Char :=
  if i < 0 then '-' :: zeroPadDigits 7 (Nat.toDigits 10 (-i).toNat)
  else zeroPadDigits 8 (Nat.toDigits 10 i.toNat)

def byteRangeString (br : SigByteRangeObject) : List Nat :=
  (('[' :: ' ' :: pct08d 0) ++ (' ' :: pct08d br.first_region_len)
    ++ (' ' :: pct08d br.second_region_offset)
    ++ (' ' :: pct08d br.second_region_len) ++ [' ', ']']).map Char.toNat

/- write_to_stream (signers.py lines 71-78): on first serialisation the
   object records the current stream position, then writes the fixed-width
   string. -/

def SigByteRangeObject.write_to_stream (br : SigByteRangeObject)
    (stream : MStream) : SigByteRangeObject × MStream :=
  let br1 := match br._range_object_offset with
    | none => { br with _range_object_offset := some stream.pos }
    | some _ => br
  (br1, stream.write (byteRangeString br1))

/- fill_offsets (signers.py lines 51-69): seeks back to the recorded offset,
   rewrites the array with the real values, restores the position.  Note
   that the source checks the _filled flag but no statement ever sets it
   to true; the model reproduces that faithfully. -/

def SigByteRangeObject.fill_offsets (br : SigByteRangeObject) (stream : MStream)
    (sig_start sig_end eof : Nat) :
    Except SignErr (SigByteRangeObject × MStream) :=
  if br._filled then .error .alreadyFilled
  else
    match br._range_object_offset with
    | none => .error .noRecordedOffset
    | some off =>
      let old_seek := stream.pos
      let br1 := { br with
        first_region_len := (sig_start : Int),
        second_region_offset := (sig_end : Int),
        second_region_len := (eof : Int) - (sig_end : Int) }
      let res := br1.write_to_stream (stream.seek off)
      .ok (res.1, res.2.seek old_seek)

/- DERPlaceholder (signers.py lines 81-106): the /Contents hex-string hole.
   value is b0 times bytes_reserved; offsets are recorded at first write. -/

structure DERPlaceholder where
  value : List Nat
  _offsets : Option (Nat × Nat)
  deriving DecidableEq, Repr

/- Constructor (line 85): value = ASCII zero repeated (bytes_reserved or
   8192) times; Python or treats 0 as falsy, hence the middle case. -/

def DERPlaceholder.make (bytes_reserved : Option Nat) : DERPlaceholder :=
  let n := match bytes_reserved with
    | none => 8192
    | some 0 => 8192
    | some k => k
  { value := List.replicate n 48, _offsets := none }

/- write_to_stream (lines 99-106): writes the angle-bracket delimiters 60
   and 62 around the reserved zeros, recording (start, end) on first
   write only. -/

def DERPlaceholder.write_to_stream (ph : DERPlaceholder) (stream : MStream) :
    DERPlaceholder × MStream :=
  let start := stream.pos
  let stream1 := stream.write ((60 : Nat) :: ph.value ++ [62])
  let e := stream1.pos
  let ph1 := match ph._offsets with
    | none => { ph with _offsets := some (start, e) }
    | some _ => ph
  (ph1, stream1)

/- Uppercase hex encoding, binascii.hexlify(..).upper() on a byte string. -/

def hexDigitUpper (n : Nat) : Nat := if n < 10 then 48 + n else 55 + n

def hexUpperByte (b : Nat) : List Nat := [hexDigitUpper (b / 16), hexDigitUpper (b % 16)]

def hex_upper (bs : List Nat) : List Nat := (bs.map hexUpperByte).flatten

/- First half of PdfSignedData.write_signature (signers.py lines 143-164),
   right after the incremental writer has rendered the document into the
   output stream: read eof = output.tell(), read the recorded placeholder
   offsets (raising when they were never recorded), back-patch the
   /ByteRange array, and assemble the digest input
   output[0:sig_start] ++ output[sig_end:eof].  The digest itself is
   applied by the caller and is not modelled. -/

def write_signature_prepare (output : MStream) (contents : DERPlaceholder)
    (byte_range : SigByteRangeObject) :
    Except SignErr (MStream × SigByteRangeObject × List Nat) :=
  let eof := output.tell
  match contents._offsets with
  | none => .error .noOffsets
  | some (sig_start, sig_end) =>
    match byte_range.fill_offsets output sig_start sig_end eof with
    | .error e => .error e
    | .ok (br, out) =>
      let digest_input :=
        out.data.take sig_start ++ (out.data.drop sig_end).take (eof - sig_end)
      .ok (out, br, digest_input)

/- Second half of PdfSignedData.write_signature (signers.py lines 167-185),
   resumed with the final CMS DER bytes: hex-encode them, check them
   against the reservation sig_end - sig_start - 2 (the assert on line
   173, surfaced as TooLarge), back-patch the hole starting one byte past
   the opening angle bracket, rewind, and yield the output together with
   the CMS bytes zero-padded to bytes_reserved / 2. -/

def write_signature_finish (output : MStream) (sig_start sig_end : Nat)
    (cms : List Nat) : Except SignErr (MStream × List Nat) :=
  let signature := hex_upper cms
  let bytes_reserved : Int := (sig_end : Int) - (sig_start : Int) - 2
  if (signature.length : Int) ≤ bytes_reserved then
    let out1 := (output.seek (sig_start + 1)).write signature
    let out2 := out1.seek 0
    let padding := List.replicate ((bytes_reserved / 2 - (cms.length : Int)).toNat) 0
    .ok (out2, cms ++ padding)
  else .error (.tooLarge signature.length bytes_reserved)

/- Incremental writer (incremental_writer.py).  The input file is a byte
   list; the dirty-object map is kept abstract (only emptiness matters to
   the write path); new_data stands for the serialised objects, xref
   section and trailer emitted for a non-trivial update. -/

structure IncrementalWriterModel where
  input : List Nat
  objects : List ((Nat × Nat) × Nat)
  new_data : List Nat

/- write_header (incremental_writer.py lines 104-111): copies the whole
   original input to the output.  The source reads the input stream from
   position 0 and restores its position afterwards; the model holds the
   input bytes directly. -/

def IncrementalWriterModel.write_header (w : IncrementalWriterModel)
    (stream : MStream) : MStream :=
  stream.write w.input

/-- Modelled from the spec: BasePdfFileWriter.write, the base-class write
path, is not under src/.  Per section 4.3 of the specification it copies
the input verbatim (through the write_header override above) and then
emits the modified objects, the cross-reference section and the trailer,
abstracted here as the new_data bytes. -/
def IncrementalWriterModel.base_write (w : IncrementalWriterModel)
    (stream : MStream) : MStream :=
  (w.write_header stream).write w.new_data

/- write (incremental_writer.py lines 130-136): with no dirty objects, copy
   the original and bail; otherwise defer to the base-class write. -/

def IncrementalWriterModel.write (w : IncrementalWriterModel)
    (stream : MStream) : MStream :=
  if w.objects.isEmpty then w.write_header stream else w.base_write stream

/- handle_id (incremental_writer.py lines 43-70).  The second ID entry is
   always a fresh 16-byte random string; the first is taken from the prior
   trailer when present (converted byte-for-byte when it was parsed as a
   text string) and freshly generated otherwise.  The two urandom(16)
   draws are passed in as fresh_id1 (used only when the prior file has no
   /ID) and fresh_id2. -/

def handle_id (prev_id : Option (List Nat × List Nat))
    (fresh_id1 fresh_id2 : List Nat) : List Nat × List Nat :=
  match prev_id with
  | some (id1, _) => (id1, fresh_id2)
  | none => (fresh_id1, fresh_id2)

/- Version upgrade step of IncrementalPdfFileWriter.__init__
   (incremental_writer.py lines 37-41): when the declared output version
   differs from the input header version, /Root /Version is set to the
   name /M.N and update_root() marks /Root for rewriting.  The first
   component is the /Version entry written (none when untouched), the
   second records whether update_root was invoked. -/

def init_version_upgrade (input_version output_version : Nat × Nat) :
    Option String × Bool :=
  if input_version ≠ output_version then
    (some ("/" ++ toString output_version.1 ++ "." ++ toString output_version.2),
     true)
  else (none, false)

/- Written from the words of the specification (for comparison only):
   output version strictly exceeds the input version, ordered
   lexicographically on (major, minor). -/

def spec_version_exceeds (a b : Nat × Nat) : Bool :=
  if b.1 < a.1 then true
  else if b.1 = a.1 ∧ b.2 < a.2 then true
  else false

/- Automatic bytes_reserved sizing.  sign_pdf (signers.py lines 1034-1046)
   and timestamp_pdf (lines 601-605) both measure the DER length of a dry
   run CMS structure and compute test_len + 2 * (test_len // 4) where
   test_len is twice the DER length. -/

def sign_pdf_bytes_reserved (dummy_cms_len : Nat) : Nat :=
  let test_len := dummy_cms_len * 2
  test_len + 2 * (test_len / 4)

def timestamp_pdf_bytes_reserved (dummy_cms_len : Nat) : Nat :=
  let test_len := dummy_cms_len * 2
  test_len + 2 * (test_len / 4)

/- Digest algorithm selection in PdfSigner.sign_pdf (signers.py lines
   977-997). -/

structure SigSeedValueSpec where
  digest_methods : List String
  deriving DecidableEq, Repr

def DEFAULT_MD : String := "sha256"

def sv_md_algorithm (sv_spec : Option SigSeedValueSpec) : Option String :=
  match sv_spec with
  | some sv =>
    match sv.digest_methods with
    | [] => none
    | m :: _ => some m
  | none => none

def select_md_algorithm (meta_md : Option String)
    (sv_spec : Option SigSeedValueSpec) (author_sig_md : Option String) :
    String :=
  let sv_md := sv_md_algorithm sv_spec
  match meta_md with
  | some m => m
  | none =>
    match sv_md with
    | some m => m
    | none =>
      match author_sig_md with
      | some m => m
      | none => DEFAULT_MD

/- _enforce_certification_constraints (signers.py lines 812-830): reads the
   certification data of the prior revision; with none present it yields no
   digest hint; an existing author signature blocks further certification
   and, at permission level 1 (MDPPerm.NO_CHANGES), any change at all;
   otherwise the author signature /DigestAlgorithm entry (when present) is
   returned. -/

structure CertificationData where
  permission_bits : Nat
  author_sig_digest_algorithm : Option String
  deriving DecidableEq, Repr

def enforce_certification_constraints (cd : Option CertificationData)
    (certify : Bool) : Except SignErr (Option String) :=
  match cd with
  | none => .ok none
  | some c =>
    if certify then .error .alreadyCertified
    else if c.permission_bits = 1 then .error .authorSigForbidsChanges
    else .ok c.author_sig_digest_algorithm

/- _get_or_create_sigfield (signers.py lines 539-585).  The enumeration of
   empty signature fields in the prior revision (enumerate_sig_fields, in
   pyhanko.sign.fields, not under src/) is passed in as the empty_fields
   list of (field name, reference) pairs; the source guards the names with
   a None check, so they are optional here.  The branch taking an explicit
   field_name delegates to _prepare_sig_field (also outside src/), passed
   in as prepare_sig_field. -/

def get_or_create_sigfield (field_name : Option String)
    (existing_fields_only : Bool) (is_timestamp : Bool)
    (empty_fields : List (Option String × Nat))
    (prepare_sig_field : String → Except SignErr (Bool × Nat)) :
    Except SignErr (Bool × Nat) :=
  let attr_name := if is_timestamp then "timestamp_field_name" else "field_name"
  match field_name with
  | none =>
    if ¬ existing_fields_only then .error (.fieldNameRequired attr_name)
    else
      match empty_fields with
      | [] => .error .noEmptyFields
      | (found_field_name, sig_field_ref) :: rest =>
        let others := rest.filterMap Prod.fst
        if others.isEmpty then .ok (false, sig_field_ref)
        else .error (.ambiguousField found_field_name others)
  | some name => prepare_sig_field name

/- Concrete scenario used for counterexamples and witnesses: a 3-byte
   prelude, a placeholder with 4 reserved bytes (so the placeholder spans
   offsets 3 to 9), the 34-byte /ByteRange array, one trailing byte, giving
   a 44-byte output. -/

def scn_stream0 : MStream := { data := [49, 50, 51], pos := 3 }

def scn_ph_write : DERPlaceholder × MStream :=
  (DERPlaceholder.make (some 4)).write_to_stream scn_stream0

def scn_br_write : SigByteRangeObject × MStream :=
  SigByteRangeObject.init.write_to_stream scn_ph_write.2

def scn_out : MStream := scn_br_write.2.write [55]

def scn_prep : Except SignErr (MStream × SigByteRangeObject × List Nat) :=
  write_signature_prepare scn_out scn_ph_write.1 scn_br_write.1

/- Projection helpers reading the /ByteRange integers and the _filled flag
   out of a result. -/

def prep_ints : Except SignErr (MStream × SigByteRangeObject × List Nat) →
    Option (Int × Int × Int)
  | .ok (_, br, _) => some (br.first_region_len, br.second_region_offset,
      br.second_region_len)
  | .error _ => none

def fill_result_filled : Except SignErr (SigByteRangeObject × MStream) →
    Option Bool
  | .ok (br, _) => some br._filled
  | .error _ => none

def scn_fill1 : Except SignErr (SigByteRangeObject × MStream) :=
  scn_br_write.1.fill_offsets scn_out 3 9 49

def scn_fill2 : Except SignErr (SigByteRangeObject × MStream) :=
  match scn_fill1 with
  | .ok (br, s) => br.fill_offsets s 3 9 49
  | .error e => .error e

def prepare_stub : String → Except SignErr (Bool × Nat) :=
  fun _ => .error .noEmptyFields

/- ------------------------------------------------------------------ -/
/- Helper lemmas -/

theorem hex_upper_length (bs : List Nat) :
    (hex_upper bs).length = 2 * bs.length := by
  induction bs with
  | nil => rfl
  | cons b t ih =>
    simp only [hex_upper, List.map_cons, List.flatten, hexUpperByte] at *
    simp [ih]
    omega

/- ------------------------------------------------------------------ -/
/- Claim theorems -/

/-- Claim C1: for every input PDF P and every write invocation producing an
output byte stream Q, the first len(P) bytes of Q equal P byte-for-byte,
and everything the incremental writer emits is appended after that copied
prefix (nothing when no object is dirty, the new body otherwise). -/
theorem incremental_write_prefix (input new_data : List Nat)
    (objects : List ((Nat × Nat) × Nat)) :
    ((IncrementalWriterModel.mk input objects new_data).write
        { data := [], pos := 0 }).data.take input.length = input ∧
    ((IncrementalWriterModel.mk input objects new_data).write
        { data := [], pos := 0 }).data
      = input ++ (if objects.isEmpty then [] else new_data) := by
  unfold IncrementalWriterModel.write IncrementalWriterModel.base_write
    IncrementalWriterModel.write_header MStream.write
  by_cases h : objects.isEmpty <;>
    simp [h, List.drop_eq_nil_of_le, List.take_append_eq_append_take]

/-- Claim C2, counterexample: in the concrete run, the placeholder spans
offsets 3 to 9 (s = 3 the position of the opening angle bracket, e = 9 one
past the closing one) and the finished output has 49 bytes, yet the four
/ByteRange integers come out as (0, 3, 9, 40) and not as the
(0, s+1, e-1, eof-(e-1)) = (0, 4, 8, 41) the claim predicts: the angle
brackets are excluded from the covered regions along with the hex digits. -/
theorem byte_range_claim_counterexample :
    scn_ph_write.1._offsets = some (3, 9) ∧
    scn_out.pos = 49 ∧
    prep_ints scn_prep = some (3, 9, 40) ∧
    prep_ints scn_prep ≠ some (3 + 1, 9 - 1, 49 - (9 - 1)) := by decide

/-- Claim C2, amended: for a /Contents placeholder spanning bytes s to e
(angle brackets included) of an output of eof bytes, the four integers
written into /ByteRange are exactly (0, s, e, eof - e): the whole
placeholder, including the angle brackets, is excluded from coverage. -/
theorem write_signature_byte_range_values (output : MStream)
    (ph : DERPlaceholder) (br : SigByteRangeObject) (s e off : Nat)
    (hph : ph._offsets = some (s, e)) (hf : br._filled = false)
    (ho : br._range_object_offset = some off) :
    ∃ out br2 dig,
      write_signature_prepare output ph br = .ok (out, br2, dig) ∧
      br2.first_region_len = (s : Int) ∧
      br2.second_region_offset = (e : Int) ∧
      br2.second_region_len = (output.pos : Int) - (e : Int) := by
  unfold write_signature_prepare SigByteRangeObject.fill_offsets
    SigByteRangeObject.write_to_stream
  rw [hph, hf, ho]
  simp [MStream.tell, MStream.seek, ho]
  exact ⟨_, _, ⟨rfl, rfl⟩, rfl, rfl, rfl⟩

/-- Witness for the amended claim C2, at the concrete scenario. -/
theorem write_signature_byte_range_values_witness :
    ∃ out br2 dig,
      write_signature_prepare scn_out scn_ph_write.1 scn_br_write.1
          = .ok (out, br2, dig) ∧
      br2.first_region_len = ((3 : Nat) : Int) ∧
      br2.second_region_offset = ((9 : Nat) : Int) ∧
      br2.second_region_len = (scn_out.pos : Int) - ((9 : Nat) : Int) := by
  exact write_signature_byte_range_values scn_out scn_ph_write.1 scn_br_write.1
    3 9 9 (by decide) (by decide) (by decide)

/-- Claim C3 (code bug): in the concrete scenario, the first fill_offsets
call succeeds, and a second call on the result succeeds again instead of
failing with AlreadyFilled, because no statement in the source ever sets
the _filled flag (the result still carries _filled = false); the other
half of the claim does hold: before the placeholder is written (no
recorded offset) fill_offsets fails with NoRecordedOffset. -/
theorem fill_offsets_double_fill :
    isOkE scn_fill1 = true ∧ isOkE scn_fill2 = true ∧
    fill_result_filled scn_fill1 = some false ∧
    SigByteRangeObject.init.fill_offsets scn_stream0 3 9 49
      = .error .noRecordedOffset := by decide

/-- Claim C4: back-patching the /Contents hole fails with TooLarge exactly
when twice the CMS length exceeds the reservation
(sig_end - sig_start - 2, the width between the angle brackets), and
succeeds exactly when twice the CMS length fits the reservation. -/
theorem write_signature_finish_too_large (output : MStream)
    (sig_start sig_end : Nat) (cms : List Nat) :
    (write_signature_finish output sig_start sig_end cms
        = .error (.tooLarge (2 * cms.length)
            ((sig_end : Int) - (sig_start : Int) - 2))
      ↔ 2 * (cms.length : Int) > (sig_end : Int) - (sig_start : Int) - 2) ∧
    (isOkE (write_signature_finish output sig_start sig_end cms) = true
      ↔ 2 * (cms.length : Int) ≤ (sig_end : Int) - (sig_start : Int) - 2) := by
  have hl : ((hex_upper cms).length : Int) = 2 * (cms.length : Int) := by
    rw [hex_upper_length]; push_cast; ring
  simp only [write_signature_finish]
  split
  next hc =>
    rw [hl] at hc
    constructor
    · constructor
      · intro habs; exact absurd habs (by simp)
      · intro hgt; omega
    · simpa [isOkE] using hc
  next hc =>
    rw [hl] at hc
    push_neg at hc
    constructor
    · constructor
      · intro _; exact hc
      · intro _
        rw [hex_upper_length]
    · constructor
      · intro habs; simp [isOkE] at habs
      · intro hle; omega

/-- Claim C5: when bytes_reserved is not supplied, both sign_pdf and
timestamp_pdf size the reservation from the dry-run CMS DER length L as
2L + 2*(L/2), and the computed value is always even. -/
theorem bytes_reserved_sizing (L : Nat) :
    sign_pdf_bytes_reserved L = 2 * L + 2 * (L / 2) ∧
    timestamp_pdf_bytes_reserved L = 2 * L + 2 * (L / 2) ∧
    sign_pdf_bytes_reserved L % 2 = 0 ∧
    timestamp_pdf_bytes_reserved L % 2 = 0 := by
  simp only [sign_pdf_bytes_reserved, timestamp_pdf_bytes_reserved]
  refine ⟨?_, ?_, ?_, ?_⟩ <;> omega

/-- Claim C6, counterexample: with two empty signature fields of which the
second is unnamed, the resolution succeeds with the first field instead of
failing with AmbiguousField as the claim requires for more than one empty
field. -/
theorem sigfield_ambiguous_counterexample :
    ([((some "A" : Option String), (1 : Nat)), (none, 2)].length > 1) ∧
    get_or_create_sigfield none true false [(some "A", 1), (none, 2)]
        prepare_stub
      = .ok (false, 1) := by decide

/-- Claim C6, amended: with field_name absent and existing_fields_only
false the resolution fails with FieldNameRequired; with
existing_fields_only true it fails with NoEmptyFields when no empty field
exists, uses the first empty field when no later empty field carries a
name, and fails with AmbiguousField listing the names of the later empty
fields when at least one of them is named. -/
theorem sigfield_resolution (it : Bool) (fields : List (Option String × Nat))
    (p : String → Except SignErr (Bool × Nat)) :
    (get_or_create_sigfield none false it fields p
        = .error (.fieldNameRequired
            (if it then "timestamp_field_name" else "field_name"))) ∧
    (get_or_create_sigfield none true it [] p = .error .noEmptyFields) ∧
    (∀ fn r rest, rest.filterMap Prod.fst = [] →
        get_or_create_sigfield none true it ((fn, r) :: rest) p
          = .ok (false, r)) ∧
    (∀ fn r rest, rest.filterMap Prod.fst ≠ [] →
        get_or_create_sigfield none true it ((fn, r) :: rest) p
          = .error (.ambiguousField fn (rest.filterMap Prod.fst))) := by
  refine ⟨?_, ?_, ?_, ?_⟩
  · simp [get_or_create_sigfield]
  · simp [get_or_create_sigfield]
  · intro fn r rest hr
    simp [get_or_create_sigfield, hr]
  · intro fn r rest hr
    simp [get_or_create_sigfield, List.isEmpty_iff, hr]

/-- Witness for the amended claim C6: two named empty fields trigger
AmbiguousField listing the second name. -/
theorem sigfield_resolution_witness :
    get_or_create_sigfield none true false [(some "A", 1), (some "B", 2)]
        prepare_stub
      = .error (.ambiguousField (some "A") ["B"]) := by
  have h := (sigfield_resolution false [(some "A", 1), (some "B", 2)]
      prepare_stub).2.2.2 (some "A") 1 [(some "B", 2)] (by decide)
  simpa using h

/-- Claim C7: the message digest algorithm is the first non-null entry of
the chain: explicit metadata algorithm, first seed-value digest method,
prior certification signature digest algorithm, default sha256. -/
theorem md_algorithm_priority (meta_md : Option String)
    (sv_spec : Option SigSeedValueSpec) (author_sig_md : Option String) :
    select_md_algorithm meta_md sv_spec author_sig_md
      = (meta_md.or ((sv_spec.bind fun sv => sv.digest_methods.head?).or
          author_sig_md)).getD DEFAULT_MD := by
  rcases meta_md with _ | m
  · rcases sv_spec with _ | ⟨dm⟩
    · rcases author_sig_md with _ | a <;> rfl
    · rcases dm with _ | ⟨m0, rest⟩
      · rcases author_sig_md with _ | a <;> rfl
      · rfl
  · rfl

/-- Claim C8: the first output /ID entry equals the prior first entry when
the prior file has an /ID array; with no prior /ID both entries are the
fresh 16-byte random values; the second entry is always the fresh 16-byte
random draw. -/
theorem handle_id_spec (prev_id : Option (List Nat × List Nat))
    (fresh_id1 fresh_id2 : List Nat)
    (h1 : fresh_id1.length = 16) (h2 : fresh_id2.length = 16) :
    (∀ i1 i2, prev_id = some (i1, i2) →
        (handle_id prev_id fresh_id1 fresh_id2).1 = i1) ∧
    (prev_id = none →
        handle_id prev_id fresh_id1 fresh_id2 = (fresh_id1, fresh_id2) ∧
        (handle_id prev_id fresh_id1 fresh_id2).1.length = 16) ∧
    (handle_id prev_id fresh_id1 fresh_id2).2 = fresh_id2 ∧
    (handle_id prev_id fresh_id1 fresh_id2).2.length = 16 := by
  rcases prev_id with _ | ⟨i1, i2⟩ <;> simp [handle_id, h1, h2]

/-- Witness for claim C8 at concrete fresh draws of length 16 and no prior
identifier. -/
theorem handle_id_spec_witness :
    (∀ i1 i2, (none : Option (List Nat × List Nat)) = some (i1, i2) →
        (handle_id none (List.replicate 16 0) (List.replicate 16 1)).1 = i1) ∧
    ((none : Option (List Nat × List Nat)) = none →
        handle_id none (List.replicate 16 0) (List.replicate 16 1)
            = (List.replicate 16 0, List.replicate 16 1) ∧
        (handle_id none (List.replicate 16 0)
            (List.replicate 16 1)).1.length = 16) ∧
    (handle_id none (List.replicate 16 0) (List.replicate 16 1)).2
        = List.replicate 16 1 ∧
    (handle_id none (List.replicate 16 0) (List.replicate 16 1)).2.length
        = 16 := by
  exact handle_id_spec none (List.replicate 16 0) (List.replicate 16 1)
    (by decide) (by decide)

/-- Claim C9, counterexample: with input header version 2.0 and declared
output version 1.7 the writer sets /Root /Version and marks /Root for
update even though the output version does not exceed the input version. -/
theorem version_upgrade_counterexample :
    (init_version_upgrade (2, 0) (1, 7)).2 = true ∧
    (init_version_upgrade (2, 0) (1, 7)).1.isSome = true ∧
    spec_version_exceeds (1, 7) (2, 0) = false := by decide

/-- Claim C9, amended: /Root /Version is set and /Root marked for update
if and only if the declared output version differs from the input header
version. -/
theorem version_upgrade_iff (input_version output_version : Nat × Nat) :
    ((init_version_upgrade input_version output_version).2 = true
        ↔ input_version ≠ output_version) ∧
    ((init_version_upgrade input_version output_version).1.isSome = true
        ↔ input_version ≠ output_version) := by
  unfold init_version_upgrade
  by_cases h : input_version = output_version <;> simp [h]

/-- Claim C10: the sig_contents value yielded by the second phase of
write_signature (and passed on verbatim to the DSS collaborator) is the
CMS DER bytes right-padded with zero bytes to exactly bytes_reserved / 2
bytes, hence strictly longer than the bare DER whenever the padding is
nonempty. -/
theorem sig_contents_zero_padded (output out2 : MStream)
    (sig_start sig_end : Nat) (cms sc : List Nat)
    (h : write_signature_finish output sig_start sig_end cms
        = .ok (out2, sc)) :
    sc = cms ++ List.replicate
        ((((sig_end : Int) - (sig_start : Int) - 2) / 2
            - (cms.length : Int)).toNat) 0 ∧
    (sc.length : Int) = ((sig_end : Int) - (sig_start : Int) - 2) / 2 ∧
    ((cms.length : Int) < ((sig_end : Int) - (sig_start : Int) - 2) / 2 →
        sc ≠ cms) := by
  simp only [write_signature_finish] at h
  split at h
  next hc =>
    rw [hex_upper_length] at hc
    push_cast at hc
    simp only [Except.ok.injEq, Prod.mk.injEq] at h
    obtain ⟨-, hsc⟩ := h
    subst hsc
    have hnn : 0 ≤ ((sig_end : Int) - (sig_start : Int) - 2) / 2
        - (cms.length : Int) := by omega
    refine ⟨rfl, ?_, ?_⟩
    · simp only [List.length_append, List.length_replicate]
      push_cast [Int.toNat_of_nonneg hnn]
      omega
    · intro hlt heq
      have hlen := congrArg List.length heq
      simp only [List.length_append, List.length_replicate] at hlen
      omega
  next hc =>
    exact absurd h (by simp)

/-- Witness for claim C10: a reservation of 8 hex characters and a 3-byte
CMS payload yield the payload padded with one zero byte to 4 bytes. -/
theorem sig_contents_zero_padded_witness :
    (([1, 2, 3, 0] : List Nat) = [1, 2, 3] ++ List.replicate
        (((((13 : Nat) : Int) - ((3 : Nat) : Int) - 2) / 2
            - (([1, 2, 3] : List Nat).length : Int)).toNat) 0) ∧
    ((([1, 2, 3, 0] : List Nat).length : Int)
        = (((13 : Nat) : Int) - ((3 : Nat) : Int) - 2) / 2) ∧
    (((([1, 2, 3] : List Nat).length : Int)
        < (((13 : Nat) : Int) - ((3 : Nat) : Int) - 2) / 2 →
        ([1, 2, 3, 0] : List Nat) ≠ [1, 2, 3])) := by
  exact sig_contents_zero_padded
    { data := List.replicate 20 48, pos := 20 }
    { data := [48, 48, 48, 48, 48, 49, 48, 50, 48, 51,
               48, 48, 48, 48, 48, 48, 48, 48, 48, 48], pos := 0 }
    3 13 [1, 2, 3] [1, 2, 3, 0] (by decide)
